import Mathlib

/-
Verification of the A2ADemo task-lifecycle managers.

Shallow embedding of:
  * the data model of `common.types` as consumed by the sample task managers,
  * `A2A/samples/python/agents/hiagent/task_manager.py` (class AgentTaskManager),
  * `A2A/samples/python/agents/crewai/data_analysis_task_manager.py`,
  * `A2A/samples/python/agents/hiagent/CustomerDetails_agent.py` (`_wait_for_process`).

The agent adapter is the external collaborator boundary: its `invoke` result and
its `stream` output are universally quantified data (`InvokeBehavior`,
`StreamSource`), exactly as the managers consume them.
-/

deriving instance DecidableEq for Except

namespace A2ADemo

/-- Task lifecycle states, from `common.types.TaskState` as used by the managers. -/
inductive TaskState where
  | submitted
  | working
  | inputRequired
  | completed
  | error
  deriving DecidableEq

/-- Message parts: a tagged union whose only variant recognised by the core is a
text part; the other variants stand for the non-text part kinds (`FilePart`,
`DataPart`) a request may carry. -/
inductive Part where
  | text (s : String)
  | filePart (name : String)
  | dataPart (payload : String)
  deriving DecidableEq

/-- True exactly on text parts: the `isinstance(part, TextPart)` check. -/
def Part.isTextPart : Part → Bool
  | .text _ => true
  | _ => false

structure Message where
  role : String
  parts : List Part
  deriving DecidableEq

structure TaskStatus where
  state : TaskState
  message : Option Message := none
  deriving DecidableEq

structure Artifact where
  parts : List Part
  deriving DecidableEq

structure Task where
  id : String
  sessionId : Option String := none
  status : TaskStatus
  message : Option Message := none
  artifacts : Option (List Artifact) := none
  deriving DecidableEq

structure TaskSendParams where
  id : String
  sessionId : String
  message : Message
  acceptedOutputModes : Option (List String) := none
  deriving DecidableEq

/-- One notification from an adapter `stream`: the dict
`{"is_task_complete": ..., "require_user_input": ..., "content": ...}`
(`require_user_input` read with `.get(..., False)`). -/
structure AgentNotification where
  is_task_complete : Bool
  require_user_input : Bool
  content : String
  deriving DecidableEq

/-- A notification is terminal when either flag is set. -/
def AgentNotification.isTerminal (x : AgentNotification) : Bool :=
  x.is_task_complete || x.require_user_input

/-- Python exceptions that the managers raise or catch. -/
inductive PyError where
  | valueError (msg : String)
  | indexError
  deriving DecidableEq

/-- The text `str(e)` of an exception; `IndexError` from `parts[0]` on an empty
list prints "list index out of range". -/
def pyErrorMessage : PyError → String
  | .valueError m => m
  | .indexError => "list index out of range"

/-- Modelled from the spec: `are_modalities_compatible` lives in
`common/server/utils`, which is not among the sample sources. Per the spec, the
requested output modality is compatible when the accepted output modes are
unspecified or share an entry with the adapter's declared supported content
types; otherwise the request is incompatible. -/
def are_modalities_compatible (accepted : Option (List String)) (supported : List String) : Bool :=
  match accepted with
  | none => true
  | some [] => true
  | some modes => modes.any fun m => supported.contains m

/-- Behaviour of one call to the adapter's synchronous `invoke`: either a result
dict `{"content": ..., "require_user_input": ...}` or a raised exception. -/
inductive InvokeBehavior where
  | returns (content : String) (require_user_input : Bool)
  | raises (msg : String)
  deriving DecidableEq

/-- One item of the realized event stream a subscriber receives:
`TaskStatusUpdateEvent`, `TaskArtifactUpdateEvent`, or a JSON-RPC response whose
`error` field is an `InternalError` carrying a message. -/
inductive StreamItem where
  | statusUpdate (id : String) (status : TaskStatus) (final : Bool)
  | artifactUpdate (id : String) (artifact : Artifact)
  | errorResponse (msg : String)
  deriving DecidableEq

def isFinalEvent : StreamItem → Bool
  | .statusUpdate _ _ f => f
  | _ => false

def isArtifactEvent : StreamItem → Bool
  | .artifactUpdate _ _ => true
  | _ => false

/-- True on a `StatusUpdate` whose status is `error` and whose final flag is set. -/
def isErrorFinalStatusEvent : StreamItem → Bool
  | .statusUpdate _ st f => f && st.state == .error
  | _ => false

/-- The adapter's `stream` realized as the finite sequence of notifications it
yields, optionally followed by an exception it raises. -/
inductive StreamSource where
  | yields (items : List AgentNotification)
  | raisesAfter (items : List AgentNotification) (msg : String)

namespace HiAgent

/-- `HiAgentCustomerAgent.SUPPORTED_CONTENT_TYPES` (CustomerDetails_agent.py). -/
def SUPPORTED_CONTENT_TYPES : List String := ["text", "text/plain"]

/-- The in-memory task store `self._tasks`. -/
def Store := String → Option Task

def emptyStore : Store := fun _ => none

/-- `get_task`: dictionary lookup. -/
def get_task (s : Store) (taskId : String) : Option Task := s taskId

/-- The `Task` that `upsert_task` builds from a `TaskSendParams`
(task_manager.py lines 48-55): status is WORKING. -/
def taskOfParams (p : TaskSendParams) : Task :=
  { id := p.id
    sessionId := some p.sessionId
    status := { state := .working }
    message := some p.message }

/-- `upsert_task`: accepts either a `Task` or a `TaskSendParams`; a
`TaskSendParams` is first converted by `taskOfParams`. -/
def upsert_task (s : Store) (x : Task ⊕ TaskSendParams) : Store :=
  match x with
  | .inl t => fun k => if k = t.id then some t else s k
  | .inr p => fun k => if k = p.id then some (taskOfParams p) else s k

/-- `_get_user_query`: reads `message.parts[0]` (IndexError on an empty list)
and requires it to be a `TextPart` (ValueError otherwise). -/
def _get_user_query (p : TaskSendParams) : Except PyError String :=
  match p.message.parts with
  | [] => .error .indexError
  | part :: _ =>
    match part with
    | .text t => .ok t
    | _ => .error (.valueError "Only text parts are supported")

/-- `_update_store`: looks the task up (ValueError when absent), overwrites its
status, replaces its artifacts only when the argument is a non-empty list
(Python truthiness of `if artifacts:`), and upserts the result. -/
def _update_store (s : Store) (taskId : String) (status : TaskStatus)
    (artifacts : Option (List Artifact)) : Except PyError (Store × Task) :=
  match s taskId with
  | none => .error (.valueError ("Task " ++ taskId ++ " not found"))
  | some task =>
    let task1 := { task with status := status }
    let task2 :=
      match artifacts with
      | some (a :: more) => { task1 with artifacts := some (a :: more) }
      | _ => task1
    .ok (upsert_task s (.inl task2), task2)

/-- The task state derived from one stream notification (lines 72-79). -/
def notificationState (item : AgentNotification) : TaskState :=
  if !item.is_task_complete && !item.require_user_input then .working
  else if item.require_user_input then .inputRequired
  else .completed

/-- The `TaskStatus` built for one stream notification. -/
def notificationStatus (item : AgentNotification) : TaskStatus :=
  { state := notificationState item
    message := some { role := "agent", parts := [Part.text item.content] } }

/-- Result of draining the loop body of `_stream_generator` over a list of
notifications: final store, the events yielded, the statuses written to the
store in order, and whether the loop ended by catching an exception. -/
structure LoopResult where
  store : Store
  events : List StreamItem
  writes : List TaskStatus
  aborted : Bool

/-- The `async for` loop of `_stream_generator` (lines 65-111): per
notification, derive the status and the end_stream flag, update the store
(artifacts only when `is_task_complete`), yield the status update, then yield
the artifact updates. An exception from `_update_store` is caught by the
surrounding `except` which yields one `InternalError` response and ends the
generator. -/
def streamLoop (taskId : String) (s : Store) : List AgentNotification → LoopResult
  | [] => { store := s, events := [], writes := [], aborted := false }
  | item :: rest =>
    let task_status := notificationStatus item
    let end_stream := item.isTerminal
    let artifacts : Option (List Artifact) :=
      if item.is_task_complete then some [{ parts := [Part.text item.content] }] else none
    match _update_store s taskId task_status artifacts with
    | .error e =>
      { store := s, events := [.errorResponse (pyErrorMessage e)], writes := [], aborted := true }
    | .ok (s2, _latest) =>
      let here := StreamItem.statusUpdate taskId task_status end_stream ::
        (match artifacts with
         | some arts => arts.map fun a => StreamItem.artifactUpdate taskId a
         | none => [])
      let r := streamLoop taskId s2 rest
      { store := r.store
        events := here ++ r.events
        writes := task_status :: r.writes
        aborted := r.aborted }

/-- `_stream_generator` (lines 58-118): `_get_user_query` runs before the
`try`, so its exceptions escape the generator; then the adapter stream is
drained; an exception raised by the adapter stream itself is caught and turned
into one `InternalError` response (unless the loop already ended that way,
in which case the source is no longer being consumed). -/
def _stream_generator (p : TaskSendParams) (s : Store) (source : StreamSource) :
    Except PyError LoopResult :=
  match _get_user_query p with
  | .error e => .error e
  | .ok _query =>
    match source with
    | .yields items => .ok (streamLoop p.id s items)
    | .raisesAfter items msg =>
      let r := streamLoop p.id s items
      if r.aborted then .ok r
      else .ok { r with events := r.events ++ [.errorResponse msg] }

/-- Outcome of `on_send_task`: the incompatible-modalities JSON-RPC error
result, a normal `SendTaskResponse` carrying the task, or an exception that
escapes the call. -/
inductive SendOutcome where
  | incompatibleModalities
  | response (task : Task)
  | uncaught (e : PyError)
  deriving DecidableEq

structure SendResult where
  store : Store
  outcome : SendOutcome
  writes : List TaskStatus

/-- `on_send_task` (lines 136-167): validate modalities (return the error
result with no store write on mismatch); upsert the params (a WORKING task);
extract the query outside the `try` (exceptions escape); invoke the adapter;
on success derive COMPLETED or INPUT_REQUIRED plus one artifact and update the
store; any exception inside the `try` is re-raised as
`ValueError("Error invoking agent: ...")` with no store write. -/
def on_send_task (p : TaskSendParams) (s : Store) (invoke : InvokeBehavior) : SendResult :=
  if !are_modalities_compatible p.acceptedOutputModes SUPPORTED_CONTENT_TYPES then
    { store := s, outcome := .incompatibleModalities, writes := [] }
  else
    let s1 := upsert_task s (.inr p)
    match _get_user_query p with
    | .error e => { store := s1, outcome := .uncaught e, writes := [{ state := .working }] }
    | .ok _query =>
      match invoke with
      | .raises msg =>
        { store := s1
          outcome := .uncaught (.valueError ("Error invoking agent: " ++ msg))
          writes := [{ state := .working }] }
      | .returns content require_user_input =>
        let parts := [Part.text content]
        let task_state := if require_user_input then TaskState.inputRequired else TaskState.completed
        let status : TaskStatus := { state := task_state, message := some { role := "agent", parts := parts } }
        match _update_store s1 p.id status (some [{ parts := parts }]) with
        | .error e =>
          { store := s1
            outcome := .uncaught (.valueError ("Error invoking agent: " ++ pyErrorMessage e))
            writes := [{ state := .working }] }
        | .ok (s2, task) =>
          { store := s2
            outcome := .response task
            writes := [{ state := .working }, status] }

/-- Outcome of `on_send_task_subscribe`: the incompatible-modalities error
result, or the realized stream (which itself either escapes with the query
exception or delivers the loop's events). -/
inductive SubscribeOutcome where
  | incompatibleModalities
  | stream (res : Except PyError LoopResult)

structure SubscribeResult where
  store : Store
  outcome : SubscribeOutcome
  writes : List TaskStatus

/-- `on_send_task_subscribe` (lines 169-178): validate modalities (error
result, no store write); upsert the params (a WORKING task); return the
generator, realized here by running it to completion. -/
def on_send_task_subscribe (p : TaskSendParams) (s : Store) (source : StreamSource) :
    SubscribeResult :=
  if !are_modalities_compatible p.acceptedOutputModes SUPPORTED_CONTENT_TYPES then
    { store := s, outcome := .incompatibleModalities, writes := [] }
  else
    let s1 := upsert_task s (.inr p)
    match _stream_generator p s1 source with
    | .error e => { store := s1, outcome := .stream (.error e), writes := [{ state := .working }] }
    | .ok r =>
      { store := r.store
        outcome := .stream (.ok r)
        writes := { state := TaskState.working } :: r.writes }

/-- The events a subscriber receives, when the stream was entered at all. -/
def subscribeEvents (r : SubscribeResult) : Option (List StreamItem) :=
  match r.outcome with
  | .stream (.ok lr) => some lr.events
  | _ => none

end HiAgent

namespace CrewAI

/-- `DataAnalysisAgent.SUPPORTED_CONTENT_TYPES` (data_analysis_agent.py). -/
def SUPPORTED_CONTENT_TYPES : List String := ["text"]

/-- The crewai store `self.tasks` maps a task id to whatever object was passed
to `upsert_task`: the raw `TaskSendParams` on the initial upsert, a `Task`
later (the code is dynamically typed and performs no conversion). -/
inductive Entry where
  | sendParams (p : TaskSendParams)
  | task (t : Task)
  deriving DecidableEq

def Store := String → Option Entry

def emptyStore : Store := fun _ => none

def entryId : Entry → String
  | .sendParams p => p.id
  | .task t => t.id

/-- `upsert_task`: `self.tasks[task.id] = task`, keyed by the object's own id. -/
def upsert_task (s : Store) (e : Entry) : Store :=
  fun k => if k = entryId e then some e else s k

def get_task (s : Store) (taskId : String) : Option Entry := s taskId

/-- `_get_user_query` (data_analysis_task_manager.py lines 106-110): identical
to the hiagent one. -/
def _get_user_query (p : TaskSendParams) : Except PyError String :=
  match p.message.parts with
  | [] => .error .indexError
  | part :: _ =>
    match part with
    | .text t => .ok t
    | _ => .error (.valueError "Only text parts are supported")

/-- Behaviour of one call to `DataAnalysisAgent.invoke`: an `AnalysisResult`
carrying a content string, or a raised exception. -/
inductive CrewInvoke where
  | returns (content : String)
  | raises (msg : String)
  deriving DecidableEq

inductive CrewOutcome where
  | incompatibleModalities
  | response (task : Task)
  | uncaught (e : PyError)
  deriving DecidableEq

structure CrewSendResult where
  store : Store
  outcome : CrewOutcome

/-- The COMPLETED task `_invoke` builds on success (lines 78-86). -/
def successTask (taskId : String) (content : String) : Task :=
  { id := taskId
    status := { state := .completed }
    message := some { role := "agent", parts := [Part.text content] }
    artifacts := some [{ parts := [Part.text content] }] }

/-- The ERROR task `_invoke` builds when the invocation raises (lines 94-102):
state ERROR, the error text in the task's message, empty artifacts; the
status itself carries no message. -/
def errorTask (taskId : String) (msg : String) : Task :=
  { id := taskId
    status := { state := .error }
    message := some { role := "agent", parts := [Part.text ("Error: " ++ msg)] }
    artifacts := some [] }

/-- `on_send_task` (lines 51-68) followed by `_invoke` (lines 70-104):
validate modalities (error result, no store write); upsert the raw params;
extract the query outside the `try` (exceptions escape); invoke; on success
upsert a COMPLETED task and return it; on failure upsert an ERROR task and
re-raise as `ValueError("Error invoking agent: ...")`. -/
def on_send_task (p : TaskSendParams) (s : Store) (invoke : CrewInvoke) : CrewSendResult :=
  if !are_modalities_compatible p.acceptedOutputModes SUPPORTED_CONTENT_TYPES then
    { store := s, outcome := .incompatibleModalities }
  else
    let s1 := upsert_task s (.sendParams p)
    match _get_user_query p with
    | .error e => { store := s1, outcome := .uncaught e }
    | .ok _query =>
      match invoke with
      | .returns content =>
        let task := successTask p.id content
        { store := upsert_task s1 (.task task), outcome := .response task }
      | .raises msg =>
        let task := errorTask p.id msg
        { store := upsert_task s1 (.task task)
          outcome := .uncaught (.valueError ("Error invoking agent: " ++ msg)) }

end CrewAI

namespace Poller

/-- The response of `_query_process`: a dict with a "status" field; the rest of
the dict (the nodes payload handed to extraction) is abstracted as one field. -/
structure ProcessData where
  status : String
  payload : String
  deriving DecidableEq

/-- How `_wait_for_process` fails: `ValueError("Process failed with status: ...")`
on a status other than success/processing, `TimeoutError` when the attempts are
exhausted. -/
inductive WaitError where
  | processFailed (status : String)
  | timeout
  deriving DecidableEq

/-- Result of `_wait_for_process`, instrumented with the number of
`_query_process` calls made and the total `asyncio.sleep` time in seconds. -/
structure WaitResult where
  result : Except WaitError ProcessData
  polls : Nat
  elapsed : Nat
  deriving DecidableEq

/-- The `for attempt in range(max_retries)` loop of `_wait_for_process`
(CustomerDetails_agent.py lines 139-149): poll; return on "success"; sleep 2
and continue on "processing"; raise on any other status; raise `TimeoutError`
once the range is exhausted. `query n` is the response of the n-th poll. -/
def waitFrom (query : Nat → ProcessData) (attempt : Nat) : Nat → WaitResult
  | 0 => { result := .error .timeout, polls := 0, elapsed := 0 }
  | fuel + 1 =>
    let pd := query attempt
    if pd.status = "success" then
      { result := .ok pd, polls := 1, elapsed := 0 }
    else if pd.status = "processing" then
      let r := waitFrom query (attempt + 1) fuel
      { result := r.result, polls := r.polls + 1, elapsed := r.elapsed + 2 }
    else
      { result := .error (.processFailed pd.status), polls := 1, elapsed := 0 }

/-- `_wait_for_process(run_id, max_retries)`. -/
def _wait_for_process (query : Nat → ProcessData) (max_retries : Nat) : WaitResult :=
  waitFrom query 0 max_retries

end Poller

namespace HiAgent

/-- The status `_stream_generator` writes for a non-terminal notification. -/
def workingStatus (x : AgentNotification) : TaskStatus :=
  { state := .working, message := some { role := "agent", parts := [Part.text x.content] } }

/-- The status `_stream_generator` writes for a terminal notification. -/
def terminalStatus (x : AgentNotification) : TaskStatus :=
  { state := if x.require_user_input then .inputRequired else .completed
    message := some { role := "agent", parts := [Part.text x.content] } }

/-- The status-update event emitted for a non-terminal notification. -/
def workingEvent (taskId : String) (x : AgentNotification) : StreamItem :=
  .statusUpdate taskId (workingStatus x) false

/-- The artifact-update events emitted for a notification: one when
`is_task_complete` is set, none otherwise. -/
def artifactEvents (taskId : String) (x : AgentNotification) : List StreamItem :=
  if x.is_task_complete then [.artifactUpdate taskId { parts := [Part.text x.content] }] else []

end HiAgent

/-- Rank of a state in the spec's partial order
submitted < working < (completed, error, input-required). -/
def stateRank : TaskState → Nat
  | .submitted => 0
  | .working => 1
  | _ => 2

/-- States that end a turn: completed, error, input-required. -/
def settledState : TaskState → Bool
  | .completed => true
  | .error => true
  | .inputRequired => true
  | _ => false

/- Concrete inputs used by counterexamples and witnesses. -/

/-- A message whose only part is text. -/
def msgText : Message := { role := "user", parts := [Part.text "hi"] }

/-- A message with a text part followed by a non-text part. -/
def msgMixed : Message := { role := "user", parts := [Part.text "hi", Part.filePart "r.bin"] }

/-- A message whose first part is a non-text part. -/
def msgNonText : Message := { role := "user", parts := [Part.dataPart "blob"] }

/-- A message with an empty parts list. -/
def msgEmpty : Message := { role := "user", parts := [] }

/-- A text-accepting request with a plain text message. -/
def pText : TaskSendParams :=
  { id := "task-1", sessionId := "sess-1", message := msgText, acceptedOutputModes := some ["text"] }

/-- A request that only accepts an output mode no adapter supports. -/
def pImage : TaskSendParams :=
  { id := "task-2", sessionId := "sess-2", message := msgText, acceptedOutputModes := some ["image/png"] }

/-- A text-accepting request whose message mixes a text and a non-text part. -/
def pMixed : TaskSendParams :=
  { id := "task-3", sessionId := "sess-3", message := msgMixed, acceptedOutputModes := some ["text"] }

/-- A text-accepting request whose message has no parts. -/
def pEmpty : TaskSendParams :=
  { id := "task-4", sessionId := "sess-4", message := msgEmpty, acceptedOutputModes := some ["text"] }

/-- A text-accepting request whose first message part is not text. -/
def pNonText : TaskSendParams :=
  { id := "task-5", sessionId := "sess-5", message := msgNonText, acceptedOutputModes := some ["text"] }

/-- A terminal (completed) notification carrying content. -/
def noteDone : AgentNotification :=
  { is_task_complete := true, require_user_input := false, content := "done" }

/-- A non-terminal progress notification. -/
def noteLooking : AgentNotification :=
  { is_task_complete := false, require_user_input := false, content := "looking up..." }

/-- A terminal input-required notification. -/
def noteNeedInput : AgentNotification :=
  { is_task_complete := false, require_user_input := true, content := "need a customer id" }

namespace HiAgent

theorem nonterminal_flags (x : AgentNotification) (hx : x.isTerminal = false) :
    x.is_task_complete = false ∧ x.require_user_input = false := by
  unfold AgentNotification.isTerminal at hx
  exact ⟨by cases h : x.is_task_complete <;> simp_all, by cases h : x.require_user_input <;> simp_all⟩

theorem notificationStatus_nonterminal (x : AgentNotification) (hx : x.isTerminal = false) :
    notificationStatus x = workingStatus x := by
  obtain ⟨h1, h2⟩ := nonterminal_flags x hx
  simp [notificationStatus, notificationState, workingStatus, h1, h2]

theorem notificationStatus_terminal (x : AgentNotification) (hx : x.isTerminal = true) :
    notificationStatus x = terminalStatus x := by
  unfold AgentNotification.isTerminal at hx
  cases hc : x.is_task_complete <;> cases hr : x.require_user_input <;>
    simp_all [notificationStatus, notificationState, terminalStatus]

theorem upsert_task_isSome (s : Store) (t : Task) (k : String) (h : (s k).isSome = true) :
    ((upsert_task s (.inl t)) k).isSome = true := by
  unfold upsert_task
  by_cases hk : k = t.id <;> simp [hk, h]

theorem upsert_params_self (s : Store) (p : TaskSendParams) :
    (upsert_task s (.inr p)) p.id = some (taskOfParams p) := by
  simp [upsert_task]

theorem streamLoop_cons_nonterminal (taskId : String) (s s2 : Store) (x : AgentNotification)
    (rest : List AgentNotification) (t : Task)
    (hs : s taskId = some t) (hx : x.isTerminal = false)
    (hs2 : s2 = upsert_task s (.inl { t with status := workingStatus x })) :
    (streamLoop taskId s (x :: rest)).events =
      workingEvent taskId x :: (streamLoop taskId s2 rest).events ∧
    (streamLoop taskId s (x :: rest)).writes =
      workingStatus x :: (streamLoop taskId s2 rest).writes ∧
    (streamLoop taskId s (x :: rest)).aborted = (streamLoop taskId s2 rest).aborted := by
  obtain ⟨h1, _h2⟩ := nonterminal_flags x hx
  subst hs2
  simp [streamLoop, _update_store, hs, h1, hx, notificationStatus_nonterminal x hx, workingEvent]

theorem streamLoop_nonterminal_run (taskId : String) (pre : List AgentNotification) :
    ∀ (s : Store) (rest : List AgentNotification),
      (∀ x ∈ pre, x.isTerminal = false) → (s taskId).isSome = true →
      ∃ s' : Store, (s' taskId).isSome = true ∧
        (streamLoop taskId s (pre ++ rest)).events =
          pre.map (workingEvent taskId) ++ (streamLoop taskId s' rest).events ∧
        (streamLoop taskId s (pre ++ rest)).writes =
          pre.map workingStatus ++ (streamLoop taskId s' rest).writes ∧
        (streamLoop taskId s (pre ++ rest)).aborted = (streamLoop taskId s' rest).aborted := by
  induction pre with
  | nil =>
    intro s rest _ hs
    exact ⟨s, hs, by simp, by simp, rfl⟩
  | cons x pre ih =>
    intro s rest hpre hs
    obtain ⟨t, ht⟩ := Option.isSome_iff_exists.mp hs
    have hx : x.isTerminal = false := hpre x (by simp)
    have step := streamLoop_cons_nonterminal taskId s _ x (pre ++ rest) t ht hx rfl
    have hs2 : ((upsert_task s (.inl { t with status := workingStatus x })) taskId).isSome = true :=
      upsert_task_isSome s _ taskId (by simp [ht])
    obtain ⟨s', hs', he, hw, ha⟩ := ih _ rest (fun y hy => hpre y (by simp [hy])) hs2
    refine ⟨s', hs', ?_, ?_, ?_⟩
    · rw [List.cons_append, step.1, he]; simp
    · rw [List.cons_append, step.2.1, hw]; simp
    · rw [List.cons_append, step.2.2, ha]

theorem streamLoop_cons_terminal (taskId : String) (s : Store) (x : AgentNotification)
    (rest : List AgentNotification) (t : Task)
    (hs : s taskId = some t) (hx : x.isTerminal = true) :
    ∃ s' : Store, (s' taskId).isSome = true ∧
      (streamLoop taskId s (x :: rest)).events =
        StreamItem.statusUpdate taskId (terminalStatus x) true ::
          (artifactEvents taskId x ++ (streamLoop taskId s' rest).events) ∧
      (streamLoop taskId s (x :: rest)).writes =
        terminalStatus x :: (streamLoop taskId s' rest).writes ∧
      (streamLoop taskId s (x :: rest)).aborted = (streamLoop taskId s' rest).aborted := by
  cases hc : x.is_task_complete
  case false =>
    refine ⟨upsert_task s (.inl { t with status := notificationStatus x }),
      upsert_task_isSome s _ taskId (by simp [hs]), ?_, ?_, ?_⟩ <;>
      simp [streamLoop, _update_store, hs, hc, hx, notificationStatus_terminal x hx, artifactEvents]
  case true =>
    refine ⟨upsert_task s (.inl
        { t with
          status := notificationStatus x
          artifacts := some [{ parts := [Part.text x.content] }] }),
      upsert_task_isSome s _ taskId (by simp [hs]), ?_, ?_, ?_⟩ <;>
      simp [streamLoop, _update_store, hs, hc, hx, notificationStatus_terminal x hx, artifactEvents]

theorem streamLoop_nonterminal_only (taskId : String) (l : List AgentNotification) (s : Store)
    (hl : ∀ x ∈ l, x.isTerminal = false) (hs : (s taskId).isSome = true) :
    (streamLoop taskId s l).events = l.map (workingEvent taskId) ∧
    (streamLoop taskId s l).writes = l.map workingStatus ∧
    (streamLoop taskId s l).aborted = false := by
  obtain ⟨s', _hs', he, hw, ha⟩ := streamLoop_nonterminal_run taskId l s [] hl hs
  rw [List.append_nil] at he hw ha
  refine ⟨?_, ?_, ?_⟩
  · rw [he]; simp [streamLoop]
  · rw [hw]; simp [streamLoop]
  · rw [ha]; simp [streamLoop]

theorem generator_contract (p : TaskSendParams) (s1 : Store) (pre rest : List AgentNotification)
    (t : AgentNotification) (q : String)
    (hq : _get_user_query p = .ok q)
    (hs : (s1 p.id).isSome = true)
    (hpre : ∀ x ∈ pre, x.isTerminal = false) (ht : t.isTerminal = true)
    (hrest : ∀ x ∈ rest, x.isTerminal = false) :
    ∃ r : LoopResult, _stream_generator p s1 (.yields (pre ++ t :: rest)) = .ok r ∧
      r.events = pre.map (workingEvent p.id) ++
        StreamItem.statusUpdate p.id (terminalStatus t) true ::
          (artifactEvents p.id t ++ rest.map (workingEvent p.id)) ∧
      r.writes = pre.map workingStatus ++ terminalStatus t :: rest.map workingStatus := by
  obtain ⟨s2, hs2, he1, hw1, _⟩ := streamLoop_nonterminal_run p.id pre s1 (t :: rest) hpre hs
  obtain ⟨t2, ht2⟩ := Option.isSome_iff_exists.mp hs2
  obtain ⟨s3, hs3, he2, hw2, _⟩ := streamLoop_cons_terminal p.id s2 t rest t2 ht2 ht
  obtain ⟨he3, hw3, _⟩ := streamLoop_nonterminal_only p.id rest s3 hrest hs3
  refine ⟨streamLoop p.id s1 (pre ++ t :: rest), by simp [_stream_generator, hq], ?_, ?_⟩
  · rw [he1, he2, he3]
  · rw [hw1, hw2, hw3]

theorem subscribe_contract (p : TaskSendParams) (s : Store) (pre rest : List AgentNotification)
    (t : AgentNotification) (q : String)
    (hcompat : are_modalities_compatible p.acceptedOutputModes SUPPORTED_CONTENT_TYPES = true)
    (hq : _get_user_query p = .ok q)
    (hpre : ∀ x ∈ pre, x.isTerminal = false) (ht : t.isTerminal = true)
    (hrest : ∀ x ∈ rest, x.isTerminal = false) :
    subscribeEvents (on_send_task_subscribe p s (.yields (pre ++ t :: rest))) =
      some (pre.map (workingEvent p.id) ++
        StreamItem.statusUpdate p.id (terminalStatus t) true ::
          (artifactEvents p.id t ++ rest.map (workingEvent p.id))) ∧
    (on_send_task_subscribe p s (.yields (pre ++ t :: rest))).writes =
      ({ state := TaskState.working } : TaskStatus) ::
        (pre.map workingStatus ++ terminalStatus t :: rest.map workingStatus) := by
  have hs1 : ((upsert_task s (.inr p)) p.id).isSome = true := by
    simp [upsert_params_self]
  obtain ⟨r, hr, he, hw⟩ :=
    generator_contract p (upsert_task s (.inr p)) pre rest t q hq hs1 hpre ht hrest
  constructor
  · simp [on_send_task_subscribe, hcompat, subscribeEvents, hr, he]
  · simp [on_send_task_subscribe, hcompat, hr, hw]

theorem subscribe_raise (p : TaskSendParams) (s : Store) (pre : List AgentNotification)
    (msg q : String)
    (hcompat : are_modalities_compatible p.acceptedOutputModes SUPPORTED_CONTENT_TYPES = true)
    (hq : _get_user_query p = .ok q)
    (hpre : ∀ x ∈ pre, x.isTerminal = false) :
    subscribeEvents (on_send_task_subscribe p s (.raisesAfter pre msg)) =
      some (pre.map (workingEvent p.id) ++ [StreamItem.errorResponse msg]) := by
  have hs1 : ((upsert_task s (.inr p)) p.id).isSome = true := by
    simp [upsert_params_self]
  obtain ⟨he, _hw, ha⟩ := streamLoop_nonterminal_only p.id pre (upsert_task s (.inr p)) hpre hs1
  simp [on_send_task_subscribe, hcompat, _stream_generator, hq, ha, subscribeEvents, he]

theorem filter_final_workingEvents (taskId : String) (l : List AgentNotification) :
    (l.map (workingEvent taskId)).filter isFinalEvent = [] := by
  induction l with
  | nil => rfl
  | cons x l ih => simp [workingEvent, isFinalEvent, ih]

theorem filter_final_artifactEvents (taskId : String) (x : AgentNotification) :
    (artifactEvents taskId x).filter isFinalEvent = [] := by
  cases hc : x.is_task_complete <;> simp [artifactEvents, isFinalEvent, hc]

theorem stateRank_workingStatus (x : AgentNotification) :
    stateRank (workingStatus x).state = 1 := rfl

theorem stateRank_terminalStatus (x : AgentNotification) :
    stateRank (terminalStatus x).state = 2 := by
  cases hr : x.require_user_input <;> simp [terminalStatus, stateRank, hr]

theorem settledState_workingStatus (x : AgentNotification) :
    settledState (workingStatus x).state = false := rfl

end HiAgent

theorem chainRank_aux (T : TaskStatus) (hT : 1 ≤ stateRank T.state) :
    ∀ xs : List TaskStatus, (∀ x ∈ xs, stateRank x.state = 1) →
      List.Chain' (fun a b => stateRank a.state ≤ stateRank b.state) (xs ++ [T]) := by
  intro xs
  induction xs with
  | nil => intro _; simp
  | cons x xs ih =>
    intro hxs
    have hx : stateRank x.state = 1 := hxs x (by simp)
    have ih' := ih fun y hy => hxs y (by simp [hy])
    cases xs with
    | nil =>
      refine List.chain'_cons.mpr ⟨?_, by simp⟩
      rw [hx]; exact hT
    | cons y ys =>
      have hy : stateRank y.state = 1 := hxs y (by simp)
      rw [List.cons_append]
      refine List.chain'_cons.mpr ⟨?_, ?_⟩
      · rw [hx, hy]
      · simpa using ih'

theorem pairwiseSettled_aux (T : TaskStatus) :
    ∀ xs : List TaskStatus, (∀ x ∈ xs, settledState x.state = false) →
      List.Pairwise (fun a b => settledState a.state = true →
        b.state ≠ TaskState.submitted ∧ b.state ≠ TaskState.working) (xs ++ [T]) := by
  intro xs
  induction xs with
  | nil => simp
  | cons x xs ih =>
    intro hxs
    rw [List.cons_append]
    refine List.Pairwise.cons ?_ (ih fun y hy => hxs y (by simp [hy]))
    intro y _hy habs
    rw [hxs x (by simp)] at habs
    simp at habs

theorem crew_query_eq (p : TaskSendParams) :
    CrewAI._get_user_query p = HiAgent._get_user_query p := rfl

theorem query_nontext (p : TaskSendParams) (part : Part) (more : List Part)
    (hparts : p.message.parts = part :: more) (hpart : part.isTextPart = false) :
    HiAgent._get_user_query p = .error (.valueError "Only text parts are supported") := by
  unfold HiAgent._get_user_query
  rw [hparts]
  cases part with
  | text t => simp [Part.isTextPart] at hpart
  | filePart n => rfl
  | dataPart d => rfl

theorem query_empty (p : TaskSendParams) (hparts : p.message.parts = []) :
    HiAgent._get_user_query p = .error .indexError := by
  unfold HiAgent._get_user_query
  rw [hparts]

namespace HiAgent

theorem send_writes_shape (p : TaskSendParams) (s : Store) (inv : InvokeBehavior) :
    (on_send_task p s inv).writes = [] ∨
    (on_send_task p s inv).writes = [{ state := TaskState.working }] ∨
    ∃ st : TaskStatus, stateRank st.state = 2 ∧
      (on_send_task p s inv).writes = [{ state := TaskState.working }, st] := by
  unfold on_send_task
  by_cases hcompat : are_modalities_compatible p.acceptedOutputModes SUPPORTED_CONTENT_TYPES = true
  · simp only [hcompat, Bool.not_true, Bool.false_eq_true, if_false]
    cases hq : _get_user_query p with
    | error e => simp [hq]
    | ok q =>
      cases inv with
      | raises msg => simp [hq]
      | returns content r =>
        simp only [hq]
        split
        · exact Or.inr (Or.inl rfl)
        · refine Or.inr (Or.inr ⟨_, ?_, rfl⟩)
          cases r <;> rfl
  · have hcf : are_modalities_compatible p.acceptedOutputModes SUPPORTED_CONTENT_TYPES = false := by
      cases h : are_modalities_compatible p.acceptedOutputModes SUPPORTED_CONTENT_TYPES
      · rfl
      · exact absurd h hcompat
    simp [hcf]

end HiAgent

/-- C1 counterexample: for the streaming send of `pText` whose adapter stream
yields one completed notification carrying content, the produced events are the
final StatusUpdate FOLLOWED by the ArtifactUpdate: the event with `final=true`
is not the last event of the sequence, and the ArtifactUpdate is not emitted
before the terminal StatusUpdate, contradicting the claim as stated. -/
theorem C1_counterexample :
    HiAgent.subscribeEvents (HiAgent.on_send_task_subscribe pText HiAgent.emptyStore (.yields [noteDone])) =
      some [StreamItem.statusUpdate "task-1" (HiAgent.terminalStatus noteDone) true,
            StreamItem.artifactUpdate "task-1" { parts := [Part.text "done"] }] ∧
    isFinalEvent (StreamItem.statusUpdate "task-1" (HiAgent.terminalStatus noteDone) true) = true ∧
    isFinalEvent (StreamItem.artifactUpdate "task-1" { parts := [Part.text "done"] }) = false := by
  decide

/-- C1 (amended): for every streaming send over an adapter stream that honours
the adapter contract (non-terminal notifications followed by exactly one
terminal notification), exactly one produced event has `final=true` and it is
the last StatusUpdate; but when the terminal notification completes the task,
the single ArtifactUpdate is emitted immediately AFTER the terminal
StatusUpdate, so the final-flagged event is then not the last event of the
sequence; no ArtifactUpdate is emitted for an input-required terminal. -/
theorem C1_amended_final_event (p : TaskSendParams) (s : HiAgent.Store)
    (pre : List AgentNotification) (t : AgentNotification) (q : String)
    (hcompat : are_modalities_compatible p.acceptedOutputModes HiAgent.SUPPORTED_CONTENT_TYPES = true)
    (hq : HiAgent._get_user_query p = .ok q)
    (hpre : ∀ x ∈ pre, x.isTerminal = false) (ht : t.isTerminal = true) :
    HiAgent.subscribeEvents (HiAgent.on_send_task_subscribe p s (.yields (pre ++ [t]))) =
      some (pre.map (HiAgent.workingEvent p.id) ++
        StreamItem.statusUpdate p.id (HiAgent.terminalStatus t) true ::
          HiAgent.artifactEvents p.id t) ∧
    (pre.map (HiAgent.workingEvent p.id) ++
        StreamItem.statusUpdate p.id (HiAgent.terminalStatus t) true ::
          HiAgent.artifactEvents p.id t).filter isFinalEvent =
      [StreamItem.statusUpdate p.id (HiAgent.terminalStatus t) true] ∧
    (t.is_task_complete = true →
      (pre.map (HiAgent.workingEvent p.id) ++
        StreamItem.statusUpdate p.id (HiAgent.terminalStatus t) true ::
          HiAgent.artifactEvents p.id t).getLast? =
        some (StreamItem.artifactUpdate p.id { parts := [Part.text t.content] })) := by
  have h := HiAgent.subscribe_contract p s pre [] t q hcompat hq hpre ht (by simp)
  refine ⟨by simpa using h.1, ?_, ?_⟩
  · rw [List.filter_append, HiAgent.filter_final_workingEvents]
    simp [List.filter_cons, isFinalEvent, HiAgent.filter_final_artifactEvents]
  · intro hc
    have : HiAgent.artifactEvents p.id t =
        [StreamItem.artifactUpdate p.id { parts := [Part.text t.content] }] := by
      simp [HiAgent.artifactEvents, hc]
    rw [this]
    rw [show pre.map (HiAgent.workingEvent p.id) ++
        StreamItem.statusUpdate p.id (HiAgent.terminalStatus t) true ::
          [StreamItem.artifactUpdate p.id { parts := [Part.text t.content] }] =
        (pre.map (HiAgent.workingEvent p.id) ++
          [StreamItem.statusUpdate p.id (HiAgent.terminalStatus t) true]) ++
          [StreamItem.artifactUpdate p.id { parts := [Part.text t.content] }] by simp]
    exact List.getLast?_concat _

/-- C1 witness: the amended claim at the concrete completed-stream input. -/
theorem C1_witness :
    HiAgent.subscribeEvents (HiAgent.on_send_task_subscribe pText HiAgent.emptyStore (.yields [noteDone])) =
      some [StreamItem.statusUpdate "task-1" (HiAgent.terminalStatus noteDone) true,
            StreamItem.artifactUpdate "task-1" { parts := [Part.text "done"] }] ∧
    [StreamItem.statusUpdate "task-1" (HiAgent.terminalStatus noteDone) true,
      StreamItem.artifactUpdate "task-1" { parts := [Part.text "done"] }].filter isFinalEvent =
      [StreamItem.statusUpdate "task-1" (HiAgent.terminalStatus noteDone) true] := by
  have h := C1_amended_final_event pText HiAgent.emptyStore [] noteDone "hi"
    (by decide) (by decide) (by simp) (by decide)
  constructor
  · simpa [HiAgent.artifactEvents, pText] using h.1
  · simpa [HiAgent.artifactEvents, pText] using h.2.1

/-- C2 counterexample: in the hiagent manager, when the adapter `invoke` raises
"backend unreachable" after the initial upsert, the store still holds the
initial task with status `working` and no status message — not an error-state
task carrying the error's message — even though the error surfaces to the
caller. -/
theorem C2_counterexample :
    (HiAgent.on_send_task pText HiAgent.emptyStore (.raises "backend unreachable")).store "task-1" =
      some (HiAgent.taskOfParams pText) ∧
    (HiAgent.taskOfParams pText).status.state = TaskState.working ∧
    (HiAgent.taskOfParams pText).status.state ≠ TaskState.error ∧
    (HiAgent.taskOfParams pText).status.message = none ∧
    (HiAgent.on_send_task pText HiAgent.emptyStore (.raises "backend unreachable")).outcome =
      .uncaught (.valueError "Error invoking agent: backend unreachable") := by
  decide

/-- C2 (amended): when the adapter invoke raises after the initial upsert, the
crewai manager leaves the store holding a Task whose status state is `error`
and whose task-level message (not its status message) carries "Error: " plus
the raised error's message, while the call surfaces the error to the caller;
the hiagent manager performs no error-state write at all and leaves the
initial `working`-status task in the store. -/
theorem C2_amended_store_after_invoke_failure (p : TaskSendParams)
    (s : HiAgent.Store) (cs : CrewAI.Store) (msg q : String)
    (hH : are_modalities_compatible p.acceptedOutputModes HiAgent.SUPPORTED_CONTENT_TYPES = true)
    (hC : are_modalities_compatible p.acceptedOutputModes CrewAI.SUPPORTED_CONTENT_TYPES = true)
    (hq : HiAgent._get_user_query p = .ok q) :
    (HiAgent.on_send_task p s (.raises msg)).store p.id = some (HiAgent.taskOfParams p) ∧
    (HiAgent.taskOfParams p).status.state = TaskState.working ∧
    (HiAgent.on_send_task p s (.raises msg)).outcome =
      .uncaught (.valueError ("Error invoking agent: " ++ msg)) ∧
    (CrewAI.on_send_task p cs (.raises msg)).store p.id =
      some (.task (CrewAI.errorTask p.id msg)) ∧
    (CrewAI.errorTask p.id msg).status.state = TaskState.error ∧
    (CrewAI.errorTask p.id msg).status.message = none ∧
    (CrewAI.errorTask p.id msg).message =
      some { role := "agent", parts := [Part.text ("Error: " ++ msg)] } ∧
    (CrewAI.on_send_task p cs (.raises msg)).outcome =
      .uncaught (.valueError ("Error invoking agent: " ++ msg)) := by
  have hcq : CrewAI._get_user_query p = .ok q := by rw [crew_query_eq]; exact hq
  refine ⟨?_, rfl, ?_, ?_, rfl, rfl, rfl, ?_⟩
  · simp [HiAgent.on_send_task, hH, hq, HiAgent.upsert_params_self]
  · simp [HiAgent.on_send_task, hH, hq]
  · simp [CrewAI.on_send_task, hC, hcq, CrewAI.upsert_task, CrewAI.entryId, CrewAI.errorTask]
  · simp [CrewAI.on_send_task, hC, hcq]

/-- C2 witness: the amended claim at a concrete failing invocation. -/
theorem C2_witness :
    (HiAgent.on_send_task pText HiAgent.emptyStore (.raises "backend unreachable")).store "task-1" =
      some (HiAgent.taskOfParams pText) ∧
    (CrewAI.on_send_task pText CrewAI.emptyStore (.raises "backend unreachable")).store "task-1" =
      some (.task (CrewAI.errorTask "task-1" "backend unreachable")) ∧
    (CrewAI.errorTask "task-1" "backend unreachable").status.state = TaskState.error := by
  have h := C2_amended_store_after_invoke_failure pText HiAgent.emptyStore CrewAI.emptyStore
    "backend unreachable" "hi" (by decide) (by decide) (by decide)
  exact ⟨h.1, h.2.2.2.1, h.2.2.2.2.1⟩

/-- C3: for every hiagent streaming send whose adapter stream honours the
adapter contract (non-terminal notifications followed by exactly one terminal
notification) and for every synchronous send, the sequence of statuses written
to the Task Store is non-decreasing under the partial order
submitted < working < (completed, error, input-required), and once a settled
status is written for the turn, no later write of that turn is `submitted` or
`working` — so successive `getTask` calls never observe a regression. -/
theorem C3_status_monotone (p : TaskSendParams) (s : HiAgent.Store)
    (inv : InvokeBehavior) (pre : List AgentNotification) (t : AgentNotification) (q : String)
    (hcompat : are_modalities_compatible p.acceptedOutputModes HiAgent.SUPPORTED_CONTENT_TYPES = true)
    (hq : HiAgent._get_user_query p = .ok q)
    (hpre : ∀ x ∈ pre, x.isTerminal = false) (ht : t.isTerminal = true) :
    (List.Chain' (fun a b => stateRank a.state ≤ stateRank b.state)
        (HiAgent.on_send_task_subscribe p s (.yields (pre ++ [t]))).writes ∧
      List.Pairwise (fun a b => settledState a.state = true →
          b.state ≠ TaskState.submitted ∧ b.state ≠ TaskState.working)
        (HiAgent.on_send_task_subscribe p s (.yields (pre ++ [t]))).writes) ∧
    (List.Chain' (fun a b => stateRank a.state ≤ stateRank b.state)
        (HiAgent.on_send_task p s inv).writes ∧
      List.Pairwise (fun a b => settledState a.state = true →
          b.state ≠ TaskState.submitted ∧ b.state ≠ TaskState.working)
        (HiAgent.on_send_task p s inv).writes) := by
  have hsub := (HiAgent.subscribe_contract p s pre [] t q hcompat hq hpre ht (by simp)).2
  have hws : (HiAgent.on_send_task_subscribe p s (.yields (pre ++ [t]))).writes =
      (({ state := TaskState.working } : TaskStatus) :: pre.map HiAgent.workingStatus) ++
        [HiAgent.terminalStatus t] := by
    rw [hsub]; simp
  have hmem1 : ∀ x ∈ ({ state := TaskState.working } : TaskStatus) ::
      pre.map HiAgent.workingStatus, stateRank x.state = 1 := by
    intro x hx
    rcases List.mem_cons.mp hx with h | h
    · rw [h]; rfl
    · obtain ⟨y, _, rfl⟩ := List.mem_map.mp h
      exact HiAgent.stateRank_workingStatus y
  have hmem2 : ∀ x ∈ ({ state := TaskState.working } : TaskStatus) ::
      pre.map HiAgent.workingStatus, settledState x.state = false := by
    intro x hx
    rcases List.mem_cons.mp hx with h | h
    · rw [h]; rfl
    · obtain ⟨y, _, rfl⟩ := List.mem_map.mp h
      exact HiAgent.settledState_workingStatus y
  refine ⟨⟨?_, ?_⟩, ?_⟩
  · rw [hws]
    exact chainRank_aux _ (by rw [HiAgent.stateRank_terminalStatus]; exact one_le_two) _ hmem1
  · rw [hws]
    exact pairwiseSettled_aux _ _ hmem2
  · rcases HiAgent.send_writes_shape p s inv with h | h | ⟨st, hst, h⟩
    · rw [h]; exact ⟨List.chain'_nil, List.Pairwise.nil⟩
    · rw [h]
      constructor
      · exact List.chain'_singleton _
      · simp
    · rw [h]
      have hx : ∀ x ∈ [({ state := TaskState.working } : TaskStatus)],
          stateRank x.state = 1 := by intro x hx; simp at hx; rw [hx]; rfl
      have hx2 : ∀ x ∈ [({ state := TaskState.working } : TaskStatus)],
          settledState x.state = false := by intro x hx; simp at hx; rw [hx]; rfl
      exact ⟨chainRank_aux st (by rw [hst]; exact one_le_two) _ hx,
        pairwiseSettled_aux st _ hx2⟩

/-- C3 witness: the monotonicity claim at a concrete contract-honouring
streaming send and a concrete successful synchronous send. -/
theorem C3_witness :
    List.Chain' (fun a b => stateRank a.state ≤ stateRank b.state)
      (HiAgent.on_send_task_subscribe pText HiAgent.emptyStore
        (.yields [noteLooking, noteDone])).writes ∧
    List.Pairwise (fun a b => settledState a.state = true →
        b.state ≠ TaskState.submitted ∧ b.state ≠ TaskState.working)
      (HiAgent.on_send_task_subscribe pText HiAgent.emptyStore
        (.yields [noteLooking, noteDone])).writes := by
  have h := C3_status_monotone pText HiAgent.emptyStore (.returns "ok" false)
    [noteLooking] noteDone "hi" (by decide) (by decide) (by decide) (by decide)
  exact ⟨h.1.1, h.1.2⟩

/-- C4 counterexample: with an adapter stream that yields a further notification
after the first terminal one, the core processes the extra notification and
emits a third event for it — the produced events do not depend only on the
prefix up to the first terminal notification, so the core does not stop
consuming there. -/
theorem C4_counterexample :
    HiAgent.subscribeEvents (HiAgent.on_send_task_subscribe pText HiAgent.emptyStore
        (.yields [noteDone, noteLooking])) =
      some [StreamItem.statusUpdate "task-1" (HiAgent.terminalStatus noteDone) true,
            StreamItem.artifactUpdate "task-1" { parts := [Part.text "done"] },
            StreamItem.statusUpdate "task-1" (HiAgent.workingStatus noteLooking) false] ∧
    HiAgent.subscribeEvents (HiAgent.on_send_task_subscribe pText HiAgent.emptyStore
        (.yields [noteDone])) =
      some [StreamItem.statusUpdate "task-1" (HiAgent.terminalStatus noteDone) true,
            StreamItem.artifactUpdate "task-1" { parts := [Part.text "done"] }] := by
  decide

/-- C4 (amended): the core does not stop consuming the adapter stream at the
first terminal notification; it processes every notification yielded. For a
stream whose notifications after the first terminal one are non-terminal, the
produced events are those for the prefix up to and including the terminal
notification followed by one further working StatusUpdate per later
notification; only when the terminal notification is last — as the adapter
contract guarantees — do the events coincide with those of the prefix. -/
theorem C4_amended_consumes_all (p : TaskSendParams) (s : HiAgent.Store)
    (pre rest : List AgentNotification) (t : AgentNotification) (q : String)
    (hcompat : are_modalities_compatible p.acceptedOutputModes HiAgent.SUPPORTED_CONTENT_TYPES = true)
    (hq : HiAgent._get_user_query p = .ok q)
    (hpre : ∀ x ∈ pre, x.isTerminal = false) (ht : t.isTerminal = true)
    (hrest : ∀ x ∈ rest, x.isTerminal = false) :
    HiAgent.subscribeEvents (HiAgent.on_send_task_subscribe p s (.yields (pre ++ t :: rest))) =
      some (pre.map (HiAgent.workingEvent p.id) ++
        StreamItem.statusUpdate p.id (HiAgent.terminalStatus t) true ::
          (HiAgent.artifactEvents p.id t ++ rest.map (HiAgent.workingEvent p.id))) :=
  (HiAgent.subscribe_contract p s pre rest t q hcompat hq hpre ht hrest).1

/-- C4 witness: the amended claim at a concrete stream with one notification
after the terminal one. -/
theorem C4_witness :
    HiAgent.subscribeEvents (HiAgent.on_send_task_subscribe pText HiAgent.emptyStore
        (.yields [noteDone, noteLooking])) =
      some [StreamItem.statusUpdate "task-1" (HiAgent.terminalStatus noteDone) true,
            StreamItem.artifactUpdate "task-1" { parts := [Part.text "done"] },
            StreamItem.statusUpdate "task-1" (HiAgent.workingStatus noteLooking) false] := by
  have h := C4_amended_consumes_all pText HiAgent.emptyStore [] [noteLooking] noteDone "hi"
    (by decide) (by decide) (by simp) (by decide) (by decide)
  simpa [HiAgent.artifactEvents, HiAgent.workingEvent, pText] using h

/-- C5: when the requested output modes are incompatible with the adapter's
supported content types, `on_send_task` and `on_send_task_subscribe` return
the incompatible-modalities error result immediately and perform no Task Store
mutation: the store is unchanged, and a previously-unseen task id still has no
entry afterwards. -/
theorem C5_incompatible_no_mutation (p : TaskSendParams) (s : HiAgent.Store)
    (cs : CrewAI.Store) (inv : InvokeBehavior) (cinv : CrewAI.CrewInvoke) (src : StreamSource)
    (hH : are_modalities_compatible p.acceptedOutputModes HiAgent.SUPPORTED_CONTENT_TYPES = false)
    (hC : are_modalities_compatible p.acceptedOutputModes CrewAI.SUPPORTED_CONTENT_TYPES = false) :
    (HiAgent.on_send_task p s inv).outcome = .incompatibleModalities ∧
    (HiAgent.on_send_task p s inv).store = s ∧
    (HiAgent.on_send_task_subscribe p s src).outcome = .incompatibleModalities ∧
    (HiAgent.on_send_task_subscribe p s src).store = s ∧
    (CrewAI.on_send_task p cs cinv).outcome = .incompatibleModalities ∧
    (CrewAI.on_send_task p cs cinv).store = cs ∧
    (s p.id = none → (HiAgent.on_send_task p s inv).store p.id = none) ∧
    (cs p.id = none → (CrewAI.on_send_task p cs cinv).store p.id = none) := by
  refine ⟨?_, ?_, ?_, ?_, ?_, ?_, ?_, ?_⟩ <;>
    simp [HiAgent.on_send_task, HiAgent.on_send_task_subscribe, CrewAI.on_send_task, hH, hC]

/-- C5 witness: the no-mutation claim at a concrete request that only accepts
an image output mode. -/
theorem C5_witness :
    are_modalities_compatible pImage.acceptedOutputModes HiAgent.SUPPORTED_CONTENT_TYPES = false ∧
    (HiAgent.on_send_task pImage HiAgent.emptyStore (.returns "x" false)).outcome =
      .incompatibleModalities ∧
    (CrewAI.on_send_task pImage CrewAI.emptyStore (.returns "x")).outcome =
      .incompatibleModalities := by
  have h := C5_incompatible_no_mutation pImage HiAgent.emptyStore CrewAI.emptyStore
    (.returns "x" false) (.returns "x") (.yields []) (by decide) (by decide)
  exact ⟨by decide, h.1, h.2.2.2.2.1⟩

/-- C6 counterexample: the initial upsert of a send request stores the task
with status `working`, not `submitted`: a `getTask` right after the initial
upsert observes `working`. -/
theorem C6_counterexample :
    HiAgent.get_task (HiAgent.upsert_task HiAgent.emptyStore (.inr pText)) "task-1" =
      some (HiAgent.taskOfParams pText) ∧
    (HiAgent.taskOfParams pText).status.state = TaskState.working ∧
    TaskState.working ≠ TaskState.submitted := by decide

/-- C6 (amended): for every send request, the initial upsert performed before
the adapter is invoked never stores status `submitted`: the hiagent manager
stores the task with status `working`, so a `getTask` issued between the
initial upsert and the terminal store write observes status `working`; the
crewai manager stores the raw `TaskSendParams` object unchanged, carrying no
status at all, and that is what a `getTask` in the same window returns. -/
theorem C6_amended_initial_upsert_working (p : TaskSendParams) (s : HiAgent.Store)
    (cs : CrewAI.Store) :
    HiAgent.get_task (HiAgent.upsert_task s (.inr p)) p.id = some (HiAgent.taskOfParams p) ∧
    (HiAgent.taskOfParams p).status.state = TaskState.working ∧
    CrewAI.get_task (CrewAI.upsert_task cs (.sendParams p)) p.id = some (.sendParams p) := by
  refine ⟨HiAgent.upsert_params_self s p, rfl, ?_⟩
  simp [CrewAI.get_task, CrewAI.upsert_task, CrewAI.entryId]

/-- C7: `_wait_for_process` polling a stub that always reports "processing"
with 5 maximum attempts fails with the timeout error after exactly 5 poll
calls and 10 time units of delay (one 2-unit sleep per attempt); a first poll
reporting "success" returns the payload after one poll with no delay; a first
poll reporting any other status fails immediately with the process-failed
error carrying that status, with no further polls. -/
theorem C7_await_completion (q1 q2 q3 : Nat → Poller.ProcessData)
    (h1 : ∀ n, (q1 n).status = "processing")
    (h2 : (q2 0).status = "success")
    (h3s : (q3 0).status ≠ "success") (h3p : (q3 0).status ≠ "processing") :
    Poller._wait_for_process q1 5 =
      { result := .error .timeout, polls := 5, elapsed := 10 } ∧
    Poller._wait_for_process q2 5 = { result := .ok (q2 0), polls := 1, elapsed := 0 } ∧
    Poller._wait_for_process q3 5 =
      { result := .error (.processFailed (q3 0).status), polls := 1, elapsed := 0 } := by
  refine ⟨?_, ?_, ?_⟩
  · simp [Poller._wait_for_process, Poller.waitFrom, h1]
  · simp [Poller._wait_for_process, Poller.waitFrom, h2]
  · simp [Poller._wait_for_process, Poller.waitFrom, h3s, h3p]

/-- C7 witness: the poller claim at concrete always-processing, immediate
success, and immediate failure stubs. -/
theorem C7_witness :
    Poller._wait_for_process (fun _ => { status := "processing", payload := "" }) 5 =
      { result := .error .timeout, polls := 5, elapsed := 10 } ∧
    Poller._wait_for_process (fun _ => { status := "success", payload := "ok" }) 5 =
      { result := .ok { status := "success", payload := "ok" }, polls := 1, elapsed := 0 } ∧
    Poller._wait_for_process (fun _ => { status := "failed", payload := "" }) 5 =
      { result := .error (.processFailed "failed"), polls := 1, elapsed := 0 } :=
  C7_await_completion (fun _ => { status := "processing", payload := "" })
    (fun _ => { status := "success", payload := "ok" })
    (fun _ => { status := "failed", payload := "" })
    (fun _ => rfl) rfl (by decide) (by decide)

/-- C8 counterexample: when the adapter stream raises immediately, the only —
and hence last — item the subscriber receives is a JSON-RPC `InternalError`
response, not a StatusUpdate event with status `error` and `final=true`. -/
theorem C8_counterexample :
    HiAgent.subscribeEvents (HiAgent.on_send_task_subscribe pText HiAgent.emptyStore
        (.raisesAfter [] "boom")) = some [StreamItem.errorResponse "boom"] ∧
    isErrorFinalStatusEvent (StreamItem.errorResponse "boom") = false ∧
    isFinalEvent (StreamItem.errorResponse "boom") = false := by
  decide

/-- C8 (amended): when the adapter stream raises after its non-terminal
notifications, the last item delivered to the subscriber is a JSON-RPC
`InternalError` response carrying the raised error's message — not a
StatusUpdate with status `error` and `final=true` — and no ArtifactUpdate
follows it (indeed none occurs anywhere in the sequence). -/
theorem C8_amended_error_response_last (p : TaskSendParams) (s : HiAgent.Store)
    (pre : List AgentNotification) (msg q : String)
    (hcompat : are_modalities_compatible p.acceptedOutputModes HiAgent.SUPPORTED_CONTENT_TYPES = true)
    (hq : HiAgent._get_user_query p = .ok q)
    (hpre : ∀ x ∈ pre, x.isTerminal = false) :
    HiAgent.subscribeEvents (HiAgent.on_send_task_subscribe p s (.raisesAfter pre msg)) =
      some (pre.map (HiAgent.workingEvent p.id) ++ [StreamItem.errorResponse msg]) ∧
    (pre.map (HiAgent.workingEvent p.id) ++ [StreamItem.errorResponse msg]).getLast? =
      some (StreamItem.errorResponse msg) ∧
    ∀ e ∈ pre.map (HiAgent.workingEvent p.id) ++ [StreamItem.errorResponse msg],
      isArtifactEvent e = false := by
  refine ⟨HiAgent.subscribe_raise p s pre msg q hcompat hq hpre, ?_, ?_⟩
  · rw [List.getLast?_append_cons]; rfl
  · intro e he
    rcases List.mem_append.mp he with h | h
    · obtain ⟨y, _, rfl⟩ := List.mem_map.mp h
      rfl
    · simp at h; rw [h]; rfl

/-- C8 witness: the amended claim at a concrete stream that yields one working
notification and then raises. -/
theorem C8_witness :
    HiAgent.subscribeEvents (HiAgent.on_send_task_subscribe pText HiAgent.emptyStore
        (.raisesAfter [noteLooking] "boom")) =
      some [HiAgent.workingEvent "task-1" noteLooking, StreamItem.errorResponse "boom"] := by
  have h := C8_amended_error_response_last pText HiAgent.emptyStore [noteLooking] "boom" "hi"
    (by decide) (by decide) (by decide)
  simpa [pText] using h.1

/-- C9 counterexample: a request whose message contains a non-text part in the
second position is not rejected: query extraction reads only the first (text)
part and succeeds, the synchronous send completes normally, and the non-text
part is silently ignored rather than propagated as an error. -/
theorem C9_counterexample :
    HiAgent._get_user_query pMixed = .ok "hi" ∧
    pMixed.message.parts.any (fun prt => ! prt.isTextPart) = true ∧
    (HiAgent.on_send_task pMixed HiAgent.emptyStore (.returns "ans" false)).outcome =
      .response
        { id := "task-3"
          sessionId := some "sess-3"
          status := { state := .completed
                      message := some { role := "agent", parts := [Part.text "ans"] } }
          message := some msgMixed
          artifacts := some [{ parts := [Part.text "ans"] }] } := by
  decide

/-- C9 (amended): the managers inspect only the FIRST part of the message: a
request whose first part is of a non-text kind is rejected by raising
`ValueError("Only text parts are supported")` from both managers and both
entry operations; non-text parts after the first are ignored, not rejected. -/
theorem C9_amended_first_part_only (p : TaskSendParams) (s : HiAgent.Store)
    (cs : CrewAI.Store) (inv : InvokeBehavior) (cinv : CrewAI.CrewInvoke) (src : StreamSource)
    (prt : Part) (more : List Part)
    (hH : are_modalities_compatible p.acceptedOutputModes HiAgent.SUPPORTED_CONTENT_TYPES = true)
    (hC : are_modalities_compatible p.acceptedOutputModes CrewAI.SUPPORTED_CONTENT_TYPES = true)
    (hparts : p.message.parts = prt :: more) (hprt : prt.isTextPart = false) :
    (HiAgent.on_send_task p s inv).outcome =
      .uncaught (.valueError "Only text parts are supported") ∧
    (HiAgent.on_send_task_subscribe p s src).outcome =
      .stream (.error (.valueError "Only text parts are supported")) ∧
    (CrewAI.on_send_task p cs cinv).outcome =
      .uncaught (.valueError "Only text parts are supported") := by
  have hq := query_nontext p prt more hparts hprt
  have hcq : CrewAI._get_user_query p = .error (.valueError "Only text parts are supported") := by
    rw [crew_query_eq]; exact hq
  refine ⟨?_, ?_, ?_⟩
  · simp [HiAgent.on_send_task, hH, hq]
  · simp [HiAgent.on_send_task_subscribe, HiAgent._stream_generator, hH, hq]
  · simp [CrewAI.on_send_task, hC, hcq]

/-- C9 witness: the amended claim at a concrete request whose first part is a
data part. -/
theorem C9_witness :
    (HiAgent.on_send_task pNonText HiAgent.emptyStore (.returns "x" false)).outcome =
      .uncaught (.valueError "Only text parts are supported") ∧
    (CrewAI.on_send_task pNonText CrewAI.emptyStore (.returns "x")).outcome =
      .uncaught (.valueError "Only text parts are supported") := by
  have h := C9_amended_first_part_only pNonText HiAgent.emptyStore CrewAI.emptyStore
    (.returns "x" false) (.returns "x") (.yields []) (Part.dataPart "blob") []
    (by decide) (by decide) rfl rfl
  exact ⟨h.1, h.2.2⟩

/-- C10: query extraction unconditionally indexes `message.parts[0]`: with an
empty parts list, both managers' send operations fail with the untyped
IndexError rather than returning a typed error result, and since the failure
occurs after the initial upsert, a `getTask` afterwards finds the task in its
initial non-error state — the `working`-status task in the hiagent store, the
raw request params in the crewai store. -/
theorem C10_empty_parts_index_error (p : TaskSendParams) (s : HiAgent.Store)
    (cs : CrewAI.Store) (inv : InvokeBehavior) (cinv : CrewAI.CrewInvoke) (src : StreamSource)
    (hH : are_modalities_compatible p.acceptedOutputModes HiAgent.SUPPORTED_CONTENT_TYPES = true)
    (hC : are_modalities_compatible p.acceptedOutputModes CrewAI.SUPPORTED_CONTENT_TYPES = true)
    (hparts : p.message.parts = []) :
    (HiAgent.on_send_task p s inv).outcome = .uncaught .indexError ∧
    (HiAgent.on_send_task p s inv).store p.id = some (HiAgent.taskOfParams p) ∧
    (HiAgent.taskOfParams p).status.state = TaskState.working ∧
    TaskState.working ≠ TaskState.error ∧
    (HiAgent.on_send_task_subscribe p s src).outcome = .stream (.error .indexError) ∧
    (HiAgent.on_send_task_subscribe p s src).store p.id = some (HiAgent.taskOfParams p) ∧
    (CrewAI.on_send_task p cs cinv).outcome = .uncaught .indexError ∧
    (CrewAI.on_send_task p cs cinv).store p.id = some (.sendParams p) := by
  have hq := query_empty p hparts
  have hcq : CrewAI._get_user_query p = .error .indexError := by
    rw [crew_query_eq]; exact hq
  refine ⟨?_, ?_, rfl, by decide, ?_, ?_, ?_, ?_⟩
  · simp [HiAgent.on_send_task, hH, hq]
  · simp [HiAgent.on_send_task, hH, hq, HiAgent.upsert_params_self]
  · simp [HiAgent.on_send_task_subscribe, HiAgent._stream_generator, hH, hq]
  · simp [HiAgent.on_send_task_subscribe, HiAgent._stream_generator, hH, hq,
      HiAgent.upsert_params_self]
  · simp [CrewAI.on_send_task, hC, hcq]
  · simp [CrewAI.on_send_task, hC, hcq, CrewAI.upsert_task, CrewAI.entryId]

/-- C10 witness: the empty-parts claim at a concrete request with no message
parts. -/
theorem C10_witness :
    (HiAgent.on_send_task pEmpty HiAgent.emptyStore (.returns "x" false)).outcome =
      .uncaught PyError.indexError ∧
    (HiAgent.on_send_task pEmpty HiAgent.emptyStore (.returns "x" false)).store "task-4" =
      some (HiAgent.taskOfParams pEmpty) ∧
    (CrewAI.on_send_task pEmpty CrewAI.emptyStore (.returns "x")).store "task-4" =
      some (.sendParams pEmpty) := by
  have h := C10_empty_parts_index_error pEmpty HiAgent.emptyStore CrewAI.emptyStore
    (.returns "x" false) (.returns "x") (.yields []) (by decide) (by decide) rfl
  exact ⟨h.1, h.2.1, h.2.2.2.2.2.2.2⟩

end A2ADemo
